import Mathlib

/-!
Verification of the port-memoized SSH connection workflow of `src/index.js`
(an interactive CLI that picks a server and opens an SSH session, remembering
per-host non-default ports in `~/.ssh_ports.json`).

The embedding below translates, function by function, the core of the source:

* `trySSHConnection`  (index.js lines 153-177): spawn an ssh process and
  classify its terminal event — an `error` event (spawn failure) resolves
  `false`, a `close` event with exit code 255 resolves `false`, any other
  close code resolves `true`.
* `promptForPort`     (index.js lines 179-193): an input prompt whose
  validator accepts exactly the strings whose JavaScript `parseInt` value is
  strictly between 0 and 65536, re-prompting otherwise, and which returns
  `parseInt` of the accepted input.
* `loadPortConfigs` / `savePortConfig` (index.js lines 119-143): a JSON file
  mapping host ip to port; load returns `{}` when the file is absent and
  catches read/parse errors (logging them and returning `{}`); save re-loads
  the mapping, overwrites one key and writes the whole mapping back, catching
  write errors.
* `sshIntoServer`     (index.js lines 148-210): the orchestrator — look up
  the remembered port (default 22, via the JavaScript `||` operator, so a
  stored 0 would also fall back to 22), attempt, on failure prompt for a port
  and retry once, and persist the port only when that retry succeeds.

Effects are made explicit: the store file is a `StoreFile` value, the two
possible spawned-process terminal events are `SpawnEvent`s supplied by the
environment, operator keystrokes at the port prompt are a list of strings
(the prompt library substitutes the default "22" for an empty entry before
validation, so the list holds the effective validated strings), and logged
error messages become report flags in the run result.
-/

namespace SshLauncher

/-! ## Connection attempt (index.js lines 153-177) -/

/-- The terminal event of one spawned ssh process: either the `error` event
(the process could not be started, e.g. missing binary) or the `close` event
carrying the exit code. -/
inductive SpawnEvent where
  | errorEvent : SpawnEvent
  | closeEvent : Int → SpawnEvent
deriving DecidableEq

/-- `trySSHConnection`: the boolean the promise resolves with.
`error` → `resolve(false)`; `close` with code 255 → `resolve(false)`;
any other close code → `resolve(true)`. -/
def trySSHConnection : SpawnEvent → Bool
  | SpawnEvent.errorEvent => false
  | SpawnEvent.closeEvent code => if code = 255 then false else true

/-- The spec's `ConnectionOutcome` view of the resolved boolean. -/
inductive ConnectionOutcome where
  | Success : ConnectionOutcome
  | Failure : ConnectionOutcome
deriving DecidableEq

/-- Classification of an attempt's terminal event as the spec's tagged
variant: `resolve(true)` is `Success`, `resolve(false)` is `Failure`. -/
def classifyAttempt (e : SpawnEvent) : ConnectionOutcome :=
  if trySSHConnection e then ConnectionOutcome.Success else ConnectionOutcome.Failure

/-- The `error` handler logs `Failed to start SSH process` before resolving;
a close event logs no such message. -/
def spawnErrorReported : SpawnEvent → Bool
  | SpawnEvent.errorEvent => true
  | SpawnEvent.closeEvent _ => false

/-! ## JavaScript `parseInt` (used by the prompt validator, lines 186-192) -/

/-- Leading whitespace skipped by `parseInt` (ASCII fragment of the
ECMAScript white-space set; the inputs in play contain none). -/
def isJsWhitespace (c : Char) : Bool :=
  c == ' ' || c == '\t' || c == '\n' || c == '\r' || c == Char.ofNat 11 || c == Char.ofNat 12

/-- Decimal digit value. -/
def decDigitVal (c : Char) : Option Nat :=
  if '0' ≤ c ∧ c ≤ '9' then some (c.toNat - '0'.toNat) else none

/-- Hexadecimal digit value (for the `0x` / `0X` prefix case of `parseInt`
with an unspecified radix). -/
def hexDigitVal (c : Char) : Option Nat :=
  if '0' ≤ c ∧ c ≤ '9' then some (c.toNat - '0'.toNat)
  else if 'a' ≤ c ∧ c ≤ 'f' then some (c.toNat - 'a'.toNat + 10)
  else if 'A' ≤ c ∧ c ≤ 'F' then some (c.toNat - 'A'.toNat + 10)
  else none

/-- The longest prefix of digit values recognised by `dv`. -/
def takeDigitVals (dv : Char → Option Nat) : List Char → List Nat
  | [] => []
  | c :: cs =>
    match dv c with
    | some d => d :: takeDigitVals dv cs
    | none => []

/-- Value of a nonempty digit prefix, `none` when no digit is present
(`parseInt` returns `NaN` then). -/
def parseIntCore (base : Nat) (dv : Char → Option Nat) (cs : List Char) : Option Nat :=
  match takeDigitVals dv cs with
  | [] => none
  | ds => some (ds.foldl (fun a d => a * base + d) 0)

/-- JavaScript `parseInt(s)` with an unspecified radix: skip leading
whitespace, read an optional sign, honour a `0x`/`0X` prefix as hexadecimal,
otherwise read the longest decimal-digit prefix; `none` models `NaN`. -/
def parseIntJS (s : String) : Option Int :=
  let cs := s.data.dropWhile isJsWhitespace
  let signed : Int × List Char :=
    match cs with
    | '-' :: rest => (-1, rest)
    | '+' :: rest => (1, rest)
    | _ => (1, cs)
  let body : Option Nat :=
    match signed.2 with
    | '0' :: 'x' :: rest => parseIntCore 16 hexDigitVal rest
    | '0' :: 'X' :: rest => parseIntCore 16 hexDigitVal rest
    | other => parseIntCore 10 decDigitVal other
  body.map (fun n => signed.1 * (n : Int))

/-! ## Port prompt (index.js lines 179-193) -/

/-- The prompt's `validate` callback: `parseInt(input) > 0 && parseInt(input)
< 65536` (comparisons with `NaN` are false, so unparsable input is
rejected). -/
def validatePortInput (input : String) : Bool :=
  match parseIntJS input with
  | some port => decide (0 < port) && decide (port < 65536)
  | none => false

/-- `promptForPort` over the stream of operator entries: the prompt library
re-asks while `validate` rejects, and the function returns `parseInt` of the
first accepted entry. `none` models an operator who never supplies an
acceptable entry (the real prompt would still be waiting). -/
def promptForPort : List String → Option Int
  | [] => none
  | s :: rest => if validatePortInput s then parseIntJS s else promptForPort rest

/-! ## Port store (index.js lines 112-143) -/

/-- Observable states of the `~/.ssh_ports.json` file: absent, unreadable or
unparsable (any error thrown while reading or parsing), or a parsed flat
mapping of host ip to port, kept as the file's list of entries. -/
inductive StoreFile where
  | absent : StoreFile
  | corrupt : StoreFile
  | valid : List (String × Int) → StoreFile

/-- `fs.existsSync` on the config path. -/
def fileExists : StoreFile → Bool
  | StoreFile.absent => false
  | _ => true

/-- `JSON.parse(fs.readFileSync(configPath))` — the body of the `try` block:
it throws (models as `Except.error`) on a read or parse failure. -/
def readAndParse : StoreFile → Except String (List (String × Int))
  | StoreFile.absent => Except.error "ENOENT"
  | StoreFile.corrupt => Except.error "read or parse failure"
  | StoreFile.valid m => Except.ok m

/-- `loadPortConfigs`: guarded by `existsSync`, the read/parse is attempted
inside `try`; a thrown error is caught and logged and `{}` is returned, and
`{}` is also returned when the file is absent. -/
def loadPortConfigs (f : StoreFile) : List (String × Int) :=
  if fileExists f then
    match readAndParse f with
    | Except.ok m => m
    | Except.error _ => []
  else []

/-- Whether `loadPortConfigs` logs `Error loading port configurations` (only
when the file exists and reading or parsing it throws). -/
def loadReportsError (f : StoreFile) : Bool :=
  if fileExists f then
    match readAndParse f with
    | Except.ok _ => false
    | Except.error _ => true
  else false

/-- Lookup of `configs[ip]` in the parsed mapping. -/
def lookupConfig : List (String × Int) → String → Option Int
  | [], _ => none
  | e :: rest, ip => if e.1 = ip then some e.2 else lookupConfig rest ip

/-- The JavaScript object assignment `configs[ip] = port`: overwrite the
binding when the key is present, append it otherwise. -/
def setConfig : List (String × Int) → String → Int → List (String × Int)
  | [], ip, port => [(ip, port)]
  | e :: rest, ip, port =>
    if e.1 = ip then (ip, port) :: rest else e :: setConfig rest ip port

/-- `savePortConfig`: re-load the current mapping, set the entry, write the
whole mapping back. `writeOk` is whether `fs.writeFileSync` succeeds; a
thrown write error is caught and logged (second component `true`) and the
file keeps its previous contents. -/
def savePortConfig (f : StoreFile) (ip : String) (port : Int) (writeOk : Bool) :
    StoreFile × Bool :=
  let configs := loadPortConfigs f
  if writeOk then (StoreFile.valid (setConfig configs ip port), false)
  else (f, true)

/-! ## Session orchestrator (index.js lines 148-210) -/

/-- The environment of one `sshIntoServer` run: the store file on disk, the
terminal events of the (at most two) spawned ssh processes, the operator's
entries at the port prompt, and whether the store write would succeed. -/
structure Env where
  file : StoreFile
  attempt1 : SpawnEvent
  attempt2 : SpawnEvent
  promptInputs : List String
  writeOk : Bool

/-- Terminal shape of a run: connected on some port, gave up after the
failed retry, or still suspended waiting for an acceptable prompt entry. -/
inductive RunStatus where
  | Succeeded : Int → RunStatus
  | GaveUp : RunStatus
  | AwaitingInput : RunStatus
deriving DecidableEq

/-- Everything observable about one run: the final store file, the ports
attempted with each attempt's resolved boolean (in order), how many prompt
sessions were shown, the `savePortConfig` call made (if any), which error
messages were logged, and the terminal status. -/
structure RunResult where
  file : StoreFile
  attemptResults : List (Int × Bool)
  promptsShown : Nat
  saved : Option (String × Int)
  loadErrorReported : Bool
  launchErrorsReported : Nat
  saveErrorReported : Bool
  status : RunStatus

/-- `portConfigs[ipAddress] || defaultPort`: the remembered port, except
that JavaScript `||` treats a stored 0 as falsy and falls back to 22. -/
def startingPort (f : StoreFile) (ip : String) : Int :=
  match lookupConfig (loadPortConfigs f) ip with
  | some v => if v = 0 then 22 else v
  | none => 22

/-- `sshIntoServer`: load the store, attempt on the remembered/default port;
on failure prompt for a port and retry once; persist via `savePortConfig`
exactly when that retry succeeds. All component errors are caught where the
source catches them, so the run always produces a `RunResult`. -/
def sshIntoServer (env : Env) (ipAddress : String) : RunResult :=
  let port := startingPort env.file ipAddress
  let loadErr := loadReportsError env.file
  let err1 : Nat := cond (spawnErrorReported env.attempt1) 1 0
  if trySSHConnection env.attempt1 then
    { file := env.file
      attemptResults := [(port, true)]
      promptsShown := 0
      saved := none
      loadErrorReported := loadErr
      launchErrorsReported := err1
      saveErrorReported := false
      status := RunStatus.Succeeded port }
  else
    match promptForPort env.promptInputs with
    | none =>
      { file := env.file
        attemptResults := [(port, false)]
        promptsShown := 1
        saved := none
        loadErrorReported := loadErr
        launchErrorsReported := err1
        saveErrorReported := false
        status := RunStatus.AwaitingInput }
    | some newPort =>
      let err2 : Nat := cond (spawnErrorReported env.attempt2) 1 0
      if trySSHConnection env.attempt2 then
        let sv := savePortConfig env.file ipAddress newPort env.writeOk
        { file := sv.1
          attemptResults := [(port, false), (newPort, true)]
          promptsShown := 1
          saved := some (ipAddress, newPort)
          loadErrorReported := loadErr
          launchErrorsReported := err1 + err2
          saveErrorReported := sv.2
          status := RunStatus.Succeeded newPort }
      else
        { file := env.file
          attemptResults := [(port, false), (newPort, false)]
          promptsShown := 1
          saved := none
          loadErrorReported := loadErr
          launchErrorsReported := err1 + err2
          saveErrorReported := false
          status := RunStatus.GaveUp }

/-- A run in which some connection attempt resolved `true` (`Success`). -/
def runHadSuccess (r : RunResult) : Bool :=
  r.attemptResults.any (fun a => a.2)

/-- A run during which `savePortConfig` was invoked. -/
def entryWritten (r : RunResult) : Bool :=
  r.saved.isSome

/-! ## Helper lemmas -/

/-- Any port the prompt hands back passed the validator, so it lies strictly
between 0 and 65536. -/
theorem promptForPort_range (l : List String) (p : Int)
    (h : promptForPort l = some p) : 0 < p ∧ p < 65536 := by
  induction l with
  | nil => simp [promptForPort] at h
  | cons s rest ih =>
    cases hv : validatePortInput s with
    | false =>
      rw [promptForPort, hv] at h
      exact ih (by simpa using h)
    | true =>
      rw [promptForPort, hv] at h
      simp at h
      unfold validatePortInput at hv
      cases hq : parseIntJS s with
      | none => rw [hq] at hv; simp at hv
      | some q =>
        rw [hq] at hv
        rw [hq] at h
        simp at hv h
        rw [← h]
        exact hv

/-- The validator accepts exactly the strings whose `parseInt` value is
strictly between 0 and 65536. -/
theorem validatePortInput_iff (s : String) :
    validatePortInput s = true ↔
      ∃ p : Int, parseIntJS s = some p ∧ 0 < p ∧ p < 65536 := by
  unfold validatePortInput
  cases h : parseIntJS s <;> simp [h]

/-- The prompt skips any finite run of rejected entries and returns the
`parseInt` value of the first accepted one. -/
theorem promptForPort_skips_rejected (bad : List String) (good : String)
    (hb : ∀ b ∈ bad, validatePortInput b = false)
    (hg : validatePortInput good = true) :
    promptForPort (bad ++ [good]) = parseIntJS good := by
  induction bad with
  | nil => simp [promptForPort, hg]
  | cons s rest ih =>
    have hs : validatePortInput s = false := hb s (by simp)
    rw [List.cons_append, promptForPort, hs]
    simp only [Bool.false_eq_true, if_false]
    exact ih (fun b hbm => hb b (by simp [hbm]))

/-- `lookupConfig` after `setConfig` at the written key. -/
theorem lookupConfig_setConfig_self (m : List (String × Int)) (ip : String) (p : Int) :
    lookupConfig (setConfig m ip p) ip = some p := by
  induction m with
  | nil => simp [setConfig, lookupConfig]
  | cons e rest ih =>
    by_cases h : e.1 = ip
    · simp [setConfig, h, lookupConfig]
    · simp [setConfig, h, lookupConfig, ih]

/-- `lookupConfig` after `setConfig` at any other key. -/
theorem lookupConfig_setConfig_ne (m : List (String × Int)) (ip ip2 : String) (p : Int)
    (h : ip2 ≠ ip) : lookupConfig (setConfig m ip p) ip2 = lookupConfig m ip2 := by
  induction m with
  | nil =>
    have h2 : ¬(ip = ip2) := fun hh => h hh.symm
    simp [setConfig, lookupConfig, h2]
  | cons e rest ih =>
    by_cases he : e.1 = ip
    · have h2 : ¬(ip = ip2) := fun hh => h hh.symm
      have h3 : ¬(e.1 = ip2) := by rw [he]; exact h2
      simp [setConfig, he, lookupConfig, h2, h3]
    · by_cases he2 : e.1 = ip2
      · simp [setConfig, he, lookupConfig, he2, h]
      · simp [setConfig, he, lookupConfig, he2, ih]

/-- The load-error report of a run is exactly the store file's load report. -/
theorem loadErrorReported_eq (env : Env) (ip : String) :
    (sshIntoServer env ip).loadErrorReported = loadReportsError env.file := by
  unfold sshIntoServer
  cases trySSHConnection env.attempt1 <;>
    cases promptForPort env.promptInputs <;>
      cases trySSHConnection env.attempt2 <;> rfl

/-- A first-attempt spawn error is counted by the launch-error report. -/
theorem launchErrors_ge_one (env : Env) (ip : String)
    (h : env.attempt1 = SpawnEvent.errorEvent) :
    1 ≤ (sshIntoServer env ip).launchErrorsReported := by
  have h1 : trySSHConnection env.attempt1 = false := by rw [h]; rfl
  have hrep : spawnErrorReported env.attempt1 = true := by rw [h]; rfl
  unfold sshIntoServer
  rw [h1, hrep]
  cases promptForPort env.promptInputs <;>
    cases trySSHConnection env.attempt2 <;> simp

/-- Every run reaches one of the three defined terminal shapes. -/
theorem run_terminates (env : Env) (ip : String) :
    (∃ p, (sshIntoServer env ip).status = RunStatus.Succeeded p) ∨
    (sshIntoServer env ip).status = RunStatus.GaveUp ∨
    (sshIntoServer env ip).status = RunStatus.AwaitingInput := by
  unfold sshIntoServer
  cases trySSHConnection env.attempt1
  · cases promptForPort env.promptInputs
    · right; right; rfl
    · cases trySSHConnection env.attempt2
      · right; left; rfl
      · left; exact ⟨_, rfl⟩
  · left; exact ⟨_, rfl⟩

/-- When a run saved an entry while the write was failing, the write error
was reported. -/
theorem saveError_on_writeFail (env : Env) (ip : String)
    (hs : (sshIntoServer env ip).saved.isSome = true) (hw : env.writeOk = false) :
    (sshIntoServer env ip).saveErrorReported = true := by
  cases h1 : trySSHConnection env.attempt1
  · cases hp : promptForPort env.promptInputs
    · simp [sshIntoServer, h1, hp] at hs
    · cases h2 : trySSHConnection env.attempt2
      · simp [sshIntoServer, h1, hp, h2] at hs
      · simp [sshIntoServer, h1, hp, h2, savePortConfig, hw]
  · simp [sshIntoServer, h1] at hs

/-! ## Concrete environments used below -/

/-- Store absent, first attempt closes with status 0, no prompt reached. -/
def envFirstSuccess : Env :=
  ⟨StoreFile.absent, SpawnEvent.closeEvent 0, SpawnEvent.closeEvent 255, [], true⟩

/-- First attempt is a spawn error, operator enters 2222, retry closes 0. -/
def envLaunchErr : Env :=
  ⟨StoreFile.absent, SpawnEvent.errorEvent, SpawnEvent.closeEvent 0, ["2222"], true⟩

/-- Both attempts are spawn errors, operator enters 2222. -/
def envLaunchErrBoth : Env :=
  ⟨StoreFile.absent, SpawnEvent.errorEvent, SpawnEvent.errorEvent, ["2222"], true⟩

/-- Both attempts close with status 255, operator first mistypes. -/
def envAllFail : Env :=
  ⟨StoreFile.absent, SpawnEvent.closeEvent 255, SpawnEvent.closeEvent 255, ["0", "2201"], true⟩

/-- First attempt closes 255, operator enters 2200, retry closes 0. -/
def envRetrySave : Env :=
  ⟨StoreFile.absent, SpawnEvent.closeEvent 255, SpawnEvent.closeEvent 0, ["2200"], true⟩

/-- Corrupt store, first attempt a spawn error, retry succeeds, write fails. -/
def envAllErrors : Env :=
  ⟨StoreFile.corrupt, SpawnEvent.errorEvent, SpawnEvent.closeEvent 0, ["8022"], false⟩

/-! ## Claim theorems -/

/-- C1: for every terminal exit status of the spawned ssh process, the
classifier returns Failure exactly when the status equals 255, and Success
for every other status, 0 and nonzero statuses other than 255 included. -/
theorem trySSHConnection_failure_iff_255 (code : Int) :
    (classifyAttempt (SpawnEvent.closeEvent code) = ConnectionOutcome.Failure ↔ code = 255) ∧
    (code ≠ 255 → classifyAttempt (SpawnEvent.closeEvent code) = ConnectionOutcome.Success) := by
  unfold classifyAttempt trySSHConnection
  by_cases h : code = 255 <;> simp [h]

/-- C1 witness: status 255 classifies as Failure, statuses 0 and 1 as
Success. -/
theorem trySSHConnection_failure_iff_255_witness :
    classifyAttempt (SpawnEvent.closeEvent 255) = ConnectionOutcome.Failure ∧
    classifyAttempt (SpawnEvent.closeEvent 0) = ConnectionOutcome.Success ∧
    classifyAttempt (SpawnEvent.closeEvent 1) = ConnectionOutcome.Success :=
  ⟨(trySSHConnection_failure_iff_255 255).1.mpr rfl,
   (trySSHConnection_failure_iff_255 0).2 (by decide),
   (trySSHConnection_failure_iff_255 1).2 (by decide)⟩

/-- C2 counterexample: a run whose first attempt succeeds (status 0, store
absent) has an attempt that returned Success, yet writes no Port Store entry
and leaves the host without any stored port, refuting "updated entry iff
some attempt returned Success". -/
theorem persist_iff_success_counterexample :
    runHadSuccess (sshIntoServer envFirstSuccess "198.51.100.7") = true ∧
    entryWritten (sshIntoServer envFirstSuccess "198.51.100.7") = false ∧
    lookupConfig (loadPortConfigs (sshIntoServer envFirstSuccess "198.51.100.7").file)
      "198.51.100.7" = none ∧
    ¬ ((entryWritten (sshIntoServer envFirstSuccess "198.51.100.7") = true) ↔
       (runHadSuccess (sshIntoServer envFirstSuccess "198.51.100.7") = true)) := by
  decide

/-- C2 amended: a Port Store entry is written during a run exactly when the
operator-supplied retry attempt returned Success (so the first attempt
failed and a valid port was entered); in particular nothing is written when
the run ends in GaveUp, and nothing is written when the first attempt
succeeds. -/
theorem persist_iff_retry_success (env : Env) (ip : String) :
    (entryWritten (sshIntoServer env ip) = true ↔
      (trySSHConnection env.attempt1 = false ∧
       (promptForPort env.promptInputs).isSome = true ∧
       trySSHConnection env.attempt2 = true)) ∧
    ((sshIntoServer env ip).status = RunStatus.GaveUp →
      entryWritten (sshIntoServer env ip) = false) ∧
    (trySSHConnection env.attempt1 = true →
      entryWritten (sshIntoServer env ip) = false) := by
  cases h1 : trySSHConnection env.attempt1
  · cases hp : promptForPort env.promptInputs
    · simp [sshIntoServer, entryWritten, h1, hp]
    · cases h2 : trySSHConnection env.attempt2
      · simp [sshIntoServer, entryWritten, h1, hp, h2]
      · simp [sshIntoServer, entryWritten, h1, hp, h2]
  · simp [sshIntoServer, entryWritten, h1]

/-- C2 amended witness: a run that gives up writes no entry. -/
theorem persist_iff_retry_success_witness :
    entryWritten (sshIntoServer envAllFail "203.0.113.9") = false :=
  (persist_iff_retry_success envAllFail "203.0.113.9").2.1 (by decide)

/-- C3: when every connection attempt fails and the operator supplies a
valid retry port, the run performs exactly two attempts - the remembered or
default port, then the operator-supplied port - terminates in GaveUp, and
shows exactly one prompt, so none after the second failure and no third
attempt. -/
theorem allFail_two_attempts_gaveUp (env : Env) (ip : String) (p : Int)
    (h1 : trySSHConnection env.attempt1 = false)
    (h2 : trySSHConnection env.attempt2 = false)
    (hp : promptForPort env.promptInputs = some p) :
    (sshIntoServer env ip).attemptResults =
      [(startingPort env.file ip, false), (p, false)] ∧
    (sshIntoServer env ip).attemptResults.length = 2 ∧
    (sshIntoServer env ip).status = RunStatus.GaveUp ∧
    (sshIntoServer env ip).promptsShown = 1 := by
  simp [sshIntoServer, h1, h2, hp]

/-- C3 witness: store absent, both attempts close 255, operator enters an
invalid then a valid port. -/
theorem allFail_two_attempts_gaveUp_witness :
    (sshIntoServer envAllFail "203.0.113.2").attemptResults =
      [(startingPort envAllFail.file "203.0.113.2", false), (2201, false)] ∧
    (sshIntoServer envAllFail "203.0.113.2").attemptResults.length = 2 ∧
    (sshIntoServer envAllFail "203.0.113.2").status = RunStatus.GaveUp ∧
    (sshIntoServer envAllFail "203.0.113.2").promptsShown = 1 :=
  allFail_two_attempts_gaveUp envAllFail "203.0.113.2" 2201
    (by decide) (by decide) (by decide)

/-- C4 counterexample: the first attempt ends with a spawn error (launch
failure), yet the run shows the port prompt and performs a second connection
attempt, refuting "no prompt and no further attempt after a launch
error". -/
theorem launchError_no_retry_counterexample :
    envLaunchErr.attempt1 = SpawnEvent.errorEvent ∧
    (sshIntoServer envLaunchErr "198.51.100.8").promptsShown = 1 ∧
    (sshIntoServer envLaunchErr "198.51.100.8").attemptResults.length = 2 := by
  decide

/-- C4 amended: a spawn error is reported (the error handler logs it) but is
then classified exactly like a connection failure: after a first-attempt
launch error the operator is prompted for a port and, given a valid entry,
one retry is performed; a launch error on that retry ends the run in
GaveUp. -/
theorem launchError_flows_into_retry (env : Env) (ip : String) (p : Int)
    (h1 : env.attempt1 = SpawnEvent.errorEvent)
    (hp : promptForPort env.promptInputs = some p) :
    1 ≤ (sshIntoServer env ip).launchErrorsReported ∧
    (sshIntoServer env ip).promptsShown = 1 ∧
    (sshIntoServer env ip).attemptResults.length = 2 ∧
    (env.attempt2 = SpawnEvent.errorEvent →
      (sshIntoServer env ip).status = RunStatus.GaveUp) := by
  have hfail : trySSHConnection env.attempt1 = false := by rw [h1]; rfl
  refine ⟨launchErrors_ge_one env ip h1, ?_, ?_, ?_⟩
  · cases h2 : trySSHConnection env.attempt2 <;>
      simp [sshIntoServer, hfail, hp, h2]
  · cases h2 : trySSHConnection env.attempt2 <;>
      simp [sshIntoServer, hfail, hp, h2]
  · intro h2
    have hfail2 : trySSHConnection env.attempt2 = false := by rw [h2]; rfl
    simp [sshIntoServer, hfail, hp, hfail2]

/-- C4 amended witness: both attempts are spawn errors; the launch error is
reported, the prompt is shown, two attempts are made, the run gives up. -/
theorem launchError_flows_into_retry_witness :
    1 ≤ (sshIntoServer envLaunchErrBoth "198.51.100.9").launchErrorsReported ∧
    (sshIntoServer envLaunchErrBoth "198.51.100.9").promptsShown = 1 ∧
    (sshIntoServer envLaunchErrBoth "198.51.100.9").attemptResults.length = 2 ∧
    (sshIntoServer envLaunchErrBoth "198.51.100.9").status = RunStatus.GaveUp :=
  have h := launchError_flows_into_retry envLaunchErrBoth "198.51.100.9" 2222
    rfl (by decide)
  ⟨h.1, h.2.1, h.2.2.1, h.2.2.2 rfl⟩

/-- C5: whenever a run invokes `savePortConfig`, the saved entry is for the
orchestrated host, its port came from the validated prompt and lies strictly
between 0 and 65536, and the attempt on exactly that port is the last
attempt of the run and returned Success - the write happens only after that
outcome is known, never speculatively. -/
theorem saved_port_validated_after_success (env : Env) (ip host : String) (p : Int)
    (h : (sshIntoServer env ip).saved = some (host, p)) :
    host = ip ∧ 0 < p ∧ p < 65536 ∧
    trySSHConnection env.attempt2 = true ∧
    promptForPort env.promptInputs = some p ∧
    (sshIntoServer env ip).attemptResults.getLast? = some (p, true) := by
  cases h1 : trySSHConnection env.attempt1
  · cases hp : promptForPort env.promptInputs
    · simp [sshIntoServer, h1, hp] at h
    · cases h2 : trySSHConnection env.attempt2
      · simp [sshIntoServer, h1, hp, h2] at h
      · rename_i val
        have hv : host = ip ∧ p = val := by
          have := h
          simp [sshIntoServer, h1, hp, h2] at this
          exact ⟨this.1.symm, this.2.symm⟩
        obtain ⟨hhost, hpv⟩ := hv
        subst hhost
        subst hpv
        have hr := promptForPort_range env.promptInputs p hp
        refine ⟨rfl, hr.1, hr.2, rfl, rfl, ?_⟩
        simp [sshIntoServer, h1, hp, h2]
  · simp [sshIntoServer, h1] at h

/-- C5 witness: first attempt closes 255, operator enters 2200, retry closes
0; the saved entry is host-correct, in range, and last-attempt-successful. -/
theorem saved_port_validated_after_success_witness :
    "203.0.113.5" = "203.0.113.5" ∧ (0 : Int) < 2200 ∧ (2200 : Int) < 65536 ∧
    trySSHConnection envRetrySave.attempt2 = true ∧
    promptForPort envRetrySave.promptInputs = some 2200 ∧
    (sshIntoServer envRetrySave "203.0.113.5").attemptResults.getLast? =
      some (2200, true) :=
  saved_port_validated_after_success envRetrySave "203.0.113.5" "203.0.113.5" 2200
    (by decide)

/-- C6: after `savePortConfig` writes port P for host H, loading the store
yields P for H, and the entry of every other host is exactly what loading
gave before the save. -/
theorem save_load_roundtrip (f : StoreFile) (H H2 : String) (P : Int) (h : H2 ≠ H) :
    lookupConfig (loadPortConfigs (savePortConfig f H P true).1) H = some P ∧
    lookupConfig (loadPortConfigs (savePortConfig f H P true).1) H2 =
      lookupConfig (loadPortConfigs f) H2 := by
  constructor
  · simp [savePortConfig, loadPortConfigs, fileExists, readAndParse,
      lookupConfig_setConfig_self]
  · simp [savePortConfig, loadPortConfigs, fileExists, readAndParse,
      lookupConfig_setConfig_ne _ _ _ _ h]

/-- C6 witness: a two-host store; saving 2200 for the first host yields 2200
on load and leaves the second host's entry untouched. -/
theorem save_load_roundtrip_witness :
    lookupConfig (loadPortConfigs
      (savePortConfig (StoreFile.valid [("10.0.0.1", 22), ("10.0.0.2", 8022)])
        "10.0.0.1" 2200 true).1) "10.0.0.1" = some 2200 ∧
    lookupConfig (loadPortConfigs
      (savePortConfig (StoreFile.valid [("10.0.0.1", 22), ("10.0.0.2", 8022)])
        "10.0.0.1" 2200 true).1) "10.0.0.2" =
      lookupConfig (loadPortConfigs
        (StoreFile.valid [("10.0.0.1", 22), ("10.0.0.2", 8022)])) "10.0.0.2" :=
  save_load_roundtrip (StoreFile.valid [("10.0.0.1", 22), ("10.0.0.2", 8022)])
    "10.0.0.1" "10.0.0.2" 2200 (by decide)

/-- C7: the prompt validator rejects "0", "65536", "-1" and "abc" and
accepts "22", "2222" and "65535"; an entry is accepted exactly when its
`parseInt` value lies strictly between 0 and 65536, and the prompt consumes
any finite run of rejected entries before the accepted one, so there is no
bound on the number of re-prompts. -/
theorem portPrompt_validation :
    validatePortInput "0" = false ∧ validatePortInput "65536" = false ∧
    validatePortInput "-1" = false ∧ validatePortInput "abc" = false ∧
    validatePortInput "22" = true ∧ validatePortInput "2222" = true ∧
    validatePortInput "65535" = true ∧
    (∀ s, validatePortInput s = true ↔
      ∃ p : Int, parseIntJS s = some p ∧ 0 < p ∧ p < 65536) ∧
    (∀ bad good, (∀ b ∈ bad, validatePortInput b = false) →
      validatePortInput good = true →
      promptForPort (bad ++ [good]) = parseIntJS good) :=
  ⟨by decide, by decide, by decide, by decide, by decide, by decide, by decide,
   fun s => validatePortInput_iff s,
   fun bad good hb hg => promptForPort_skips_rejected bad good hb hg⟩

/-- C7 witness: all four rejected entries in a row, then "2222" accepted. -/
theorem portPrompt_validation_witness :
    promptForPort (["0", "65536", "-1", "abc"] ++ ["2222"]) = parseIntJS "2222" :=
  portPrompt_validation.2.2.2.2.2.2.2.2 ["0", "65536", "-1", "abc"] "2222"
    (by decide) (by decide)

/-- C8: loading the port store is total and fails soft - an absent file
yields the empty mapping with no error logged, a read or parse failure
yields the empty mapping with the error logged (never an abort), a readable
file yields its parsed mapping, and every file state yields some mapping. -/
theorem loadPortConfigs_failsSoft :
    loadPortConfigs StoreFile.absent = [] ∧
    loadReportsError StoreFile.absent = false ∧
    loadPortConfigs StoreFile.corrupt = [] ∧
    loadReportsError StoreFile.corrupt = true ∧
    (∀ m, loadPortConfigs (StoreFile.valid m) = m) ∧
    (∀ f, ∃ m, loadPortConfigs f = m) :=
  ⟨rfl, rfl, rfl, rfl, fun _ => rfl, fun f => ⟨loadPortConfigs f, rfl⟩⟩

/-- C9: the orchestrator never lets a component error escape - every run,
including those with a corrupt store, spawn errors and a failing write,
reaches one of the defined terminal shapes and returns its result, and each
component error surfaces as an operator-visible report: a store read error
sets the load report, a spawn error is counted by the launch report, and a
failing write after a successful retry sets the save report. -/
theorem sshIntoServer_total_reports_errors (env : Env) (ip : String) :
    ((∃ p, (sshIntoServer env ip).status = RunStatus.Succeeded p) ∨
      (sshIntoServer env ip).status = RunStatus.GaveUp ∨
      (sshIntoServer env ip).status = RunStatus.AwaitingInput) ∧
    (env.file = StoreFile.corrupt → (sshIntoServer env ip).loadErrorReported = true) ∧
    (env.attempt1 = SpawnEvent.errorEvent →
      1 ≤ (sshIntoServer env ip).launchErrorsReported) ∧
    ((sshIntoServer env ip).saved.isSome = true → env.writeOk = false →
      (sshIntoServer env ip).saveErrorReported = true) := by
  refine ⟨run_terminates env ip, ?_, fun h => launchErrors_ge_one env ip h,
    fun hs hw => saveError_on_writeFail env ip hs hw⟩
  intro hf
  rw [loadErrorReported_eq, hf]
  rfl

/-- C9 witness: corrupt store, spawn error on the first attempt, successful
retry with a failing write - all three reports are set and the run ends in a
terminal state. -/
theorem sshIntoServer_total_reports_errors_witness :
    (sshIntoServer envAllErrors "203.0.113.7").loadErrorReported = true ∧
    1 ≤ (sshIntoServer envAllErrors "203.0.113.7").launchErrorsReported ∧
    (sshIntoServer envAllErrors "203.0.113.7").saveErrorReported = true :=
  have h := sshIntoServer_total_reports_errors envAllErrors "203.0.113.7"
  ⟨h.2.1 rfl, h.2.2.1 rfl, h.2.2.2 (by decide) rfl⟩

/-- C10: because the validator and the returned value both use `parseInt`,
an entry whose leading numeric prefix is an in-range integer is accepted
even with trailing garbage, and the retry port is that `parseInt` value:
"22abc" is accepted as 22 and "8080.9" as 8080; in general a `parseInt`
value strictly between 0 and 65536 makes the validator accept and the prompt
return exactly that value. -/
theorem parseInt_prefix_accepted :
    parseIntJS "22abc" = some 22 ∧ validatePortInput "22abc" = true ∧
    promptForPort ["22abc"] = some 22 ∧
    parseIntJS "8080.9" = some 8080 ∧ validatePortInput "8080.9" = true ∧
    promptForPort ["8080.9"] = some 8080 ∧
    (∀ s : String, ∀ p : Int, parseIntJS s = some p → 0 < p → p < 65536 →
      validatePortInput s = true ∧ promptForPort [s] = some p) := by
  refine ⟨by decide, by decide, by decide, by decide, by decide, by decide, ?_⟩
  intro s p hp h0 h1
  have hv : validatePortInput s = true := by
    unfold validatePortInput
    rw [hp]
    simp [h0, h1]
  refine ⟨hv, ?_⟩
  rw [promptForPort, hv]
  simp [hp]

/-- C10 witness: "9000xyz" is accepted and the prompt returns 9000. -/
theorem parseInt_prefix_accepted_witness :
    validatePortInput "9000xyz" = true ∧ promptForPort ["9000xyz"] = some 9000 :=
  parseInt_prefix_accepted.2.2.2.2.2.2 "9000xyz" 9000 (by decide) (by decide)
    (by decide)

end SshLauncher
